import Mathlib

/-!
Shallow embedding of `pycardano/key.py`: the `Key` container and its
metadata defaults, binary serialization, the JSON interchange codec,
key equality, verification-key hashing, and the key-pair factories.

External collaborators (per the spec) are parameters of the embedding:
the structured binary codec (CBOR) is a pair of functions required to be
mutual inverses on byte strings, the BLAKE2b digest and the Ed25519
public-key derivation are opaque function parameters.  JSON text
parsing/printing is external as well, so JSON values are represented by
their parsed form: an ordered list of (field name, string value) pairs.
-/

set_option autoImplicit false

namespace PyCardano

/-- Byte strings are lists of naturals; each valid byte is `< 256`. -/
abbrev Bytes := List Nat

/-- A well-formed byte string: every element is an actual byte. -/
def isBytes (b : Bytes) : Prop := ∀ x ∈ b, x < 256

instance (b : Bytes) : Decidable (isBytes b) := List.decidableBAll _ b

/-- Python `x or default` for an optional string argument: `None` and the
empty string (both falsy) fall back to the default. -/
def pyOr (x : Option String) (d : String) : String :=
  match x with
  | none => d
  | some s => if s = "" then d else s

/-- The per-class constants `KEY_TYPE` and `DESCRIPTION` declared on each
concrete `Key` subclass (key.py lines 17-18 and the four variants). -/
structure KeyClass where
  KEY_TYPE : String
  DESCRIPTION : String
deriving DecidableEq

/-- A `Key` instance: its concrete class plus the three instance fields set
by `Key.__init__` (`_payload`, `_key_type`, `_description`).  `__eq__`
never reads `cls`; it is recorded to model which subclass built the
instance. -/
structure Key where
  cls : KeyClass
  payload : Bytes
  key_type : String
  description : String
deriving DecidableEq

/-- Embeds `Key.__init__` (key.py lines 20-23).  The source reads
`self._description = description or self.KEY_TYPE`: the description
falls back to the class's `KEY_TYPE` constant, not to `DESCRIPTION`. -/
def Key.init (c : KeyClass) (payload : Bytes)
    (key_type description : Option String) : Key :=
  { cls := c
    payload := payload
    key_type := pyOr key_type c.KEY_TYPE
    description := pyOr description c.KEY_TYPE }

/-- Embeds `Key.serialize` (key.py line 37-38): the payload unchanged. -/
def Key.serialize (k : Key) : Bytes := k.payload

/-- Embeds `Key.deserialize` (key.py lines 40-42): `cls(value)` with the
metadata arguments omitted. -/
def Key.deserialize (c : KeyClass) (value : Bytes) : Key :=
  Key.init c value none none

/-- The concrete class `PaymentSigningKey` (key.py lines 114-116). -/
def PaymentSigningKey : KeyClass :=
  { KEY_TYPE := "PaymentSigningKeyShelley_ed25519"
    DESCRIPTION := "Payment Verification Key" }

/-- The concrete class `PaymentVerificationKey` (key.py lines 119-121). -/
def PaymentVerificationKey : KeyClass :=
  { KEY_TYPE := "PaymentVerificationKeyShelley_ed25519"
    DESCRIPTION := "Payment Verification Key" }

/-- The concrete class `StakeSigningKey` (key.py lines 140-142). -/
def StakeSigningKey : KeyClass :=
  { KEY_TYPE := "StakeSigningKeyShelley_ed25519"
    DESCRIPTION := "Stake Verification Key" }

/-- The concrete class `StakeVerificationKey` (key.py lines 145-147). -/
def StakeVerificationKey : KeyClass :=
  { KEY_TYPE := "StakeVerificationKeyShelley_ed25519"
    DESCRIPTION := "Stake Verification Key" }

/-- The four concrete key variants of the module. -/
def concreteKeyClasses : List KeyClass :=
  [PaymentSigningKey, PaymentVerificationKey,
   StakeSigningKey, StakeVerificationKey]

/-- Lowercase hexadecimal digit for a nibble: `0`-`9` then `a`-`f`,
computed from the ASCII codes. -/
def nibbleChar (n : Nat) : Char :=
  if n < 10 then Char.ofNat (48 + n) else Char.ofNat (87 + n)

/-- Numeric value of a lowercase hexadecimal digit character, if it is
one, read off its ASCII code. -/
def charNibble (c : Char) : Option Nat :=
  if 48 ≤ c.toNat ∧ c.toNat ≤ 57 then some (c.toNat - 48)
  else if 97 ≤ c.toNat ∧ c.toNat ≤ 102 then some (c.toNat - 87)
  else none

/-- Hex-encode a byte string (two lowercase digits per byte). -/
def hexEncode (b : Bytes) : List Char :=
  b.flatMap fun x => [nibbleChar (x / 16), nibbleChar (x % 16)]

/-- Hex-decode a character string back to bytes; fails on a non-digit or
an odd length. -/
def hexDecode : List Char → Option Bytes
  | [] => some []
  | [_] => none
  | c1 :: c2 :: rest =>
    match charNibble c1, charNibble c2, hexDecode rest with
    | some hi, some lo, some tail => some ((16 * hi + lo) :: tail)
    | _, _, _ => none

/-- The external structured binary codec (CBOR), per the spec an opaque
pair `encode/decode` on byte strings. -/
structure BinaryCodec where
  encode : Bytes → Bytes
  decode : Bytes → Bytes

/-- The spec's conformance requirement on the external binary codec:
`encode` and `decode` are mutual inverses on byte strings, and `encode`
produces byte strings. -/
def BinaryCodec.conformant (cc : BinaryCodec) : Prop :=
  (∀ b, isBytes b → cc.decode (cc.encode b) = b) ∧
  (∀ b, isBytes b → isBytes (cc.encode b))

/-- The identity codec: a conformant instance of the external binary
codec used to evaluate the embedding on concrete inputs. -/
def idCodec : BinaryCodec := { encode := id, decode := id }

/-- Modelled from the spec: `CBORSerializable.to_cbor`
(pycardano.serialization, not under src/) hex-encodes the external
binary encoding of `serialize()`. -/
def Key.to_cbor (cc : BinaryCodec) (k : Key) : List Char :=
  hexEncode (cc.encode k.serialize)

/-- Modelled from the spec: `CBORSerializable.from_cbor`
(pycardano.serialization, not under src/) hex-decodes and binary-decodes
the text, then `deserialize` wraps the recovered payload. -/
def Key.from_cbor (cc : BinaryCodec) (c : KeyClass) (s : List Char) :
    Option Key :=
  (hexDecode s).map fun raw => Key.deserialize c (cc.decode raw)

/-- Error outcomes of `Key.from_json`: the `InvalidKeyTypeException`
raised by the type check (with the expected and actual type tags), or a
parse/decode failure on malformed data. -/
inductive KeyRestoreError where
  | invalidKeyTypeException (expected got : String)
  | malformedData
deriving DecidableEq

/-- A parsed JSON object: an ordered list of (field name, string value)
pairs.  JSON text parsing/printing is external to the core. -/
abbrev JsonObj := List (String × String)

/-- Embeds `Key.to_json` (key.py lines 44-56): a JSON object with the
three fields `type`, `description` and `cborHex`, in source order. -/
def Key.to_json (cc : BinaryCodec) (k : Key) : JsonObj :=
  [("type", k.key_type),
   ("description", k.description),
   ("cborHex", String.mk (Key.to_cbor cc k))]

/-- The unvalidated tail of `Key.from_json` (key.py lines 79-81):
`cls(cls.from_cbor(obj["cborHex"]).payload, key_type=obj["type"],
description=obj["description"])`, with field accesses in Python's
evaluation order and a missing field or bad hex reported as malformed
data. -/
def Key.from_json_body (cc : BinaryCodec) (c : KeyClass) (obj : JsonObj) :
    Except KeyRestoreError Key :=
  match obj.lookup "cborHex" with
  | none => .error .malformedData
  | some h =>
    match Key.from_cbor cc c h.data with
    | none => .error .malformedData
    | some k =>
      match obj.lookup "type", obj.lookup "description" with
      | some t, some d => .ok (Key.init c k.payload (some t) (some d))
      | _, _ => .error .malformedData

/-- Embeds `Key.from_json` (key.py lines 58-81): when `validate_type` is
set, first compare the object's `type` field with the class constant and
raise `InvalidKeyTypeException` on mismatch; then rebuild the key from
`cborHex`, `type` and `description`. -/
def Key.from_json (cc : BinaryCodec) (c : KeyClass) (obj : JsonObj)
    (validate_type : Bool) : Except KeyRestoreError Key :=
  if validate_type then
    match obj.lookup "type" with
    | none => .error .malformedData
    | some t =>
      if t ≠ c.KEY_TYPE then
        .error (.invalidKeyTypeException c.KEY_TYPE t)
      else
        Key.from_json_body cc c obj
  else
    Key.from_json_body cc c obj

/-- The right-hand side of a Python `==` comparison against a key: either
another `Key` instance, or any non-`Key` value (represented by a tag). -/
inductive PyValue where
  | key (k : Key)
  | nonKey (v : String)

/-- Embeds `Key.__eq__` (key.py lines 83-88): `False` for a non-`Key`
operand, otherwise comparison of payload, description and key_type.  The
concrete class of either operand is never inspected. -/
def Key.eq (k : Key) (other : PyValue) : Bool :=
  match other with
  | .nonKey _ => false
  | .key o =>
    k.payload == o.payload && k.description == o.description &&
      k.key_type == o.key_type

/-- Modelled from the spec: `ADDR_KEYHASH_SIZE` (pycardano.hash, not
under src/) is 28 bytes. -/
def ADDR_KEYHASH_SIZE : Nat := 28

/-- Embeds `AddressKey.hash` (key.py lines 94-104): the raw BLAKE2b
digest of the payload at `ADDR_KEYHASH_SIZE` bytes.  `blake2b` is the
external primitive, passed as a function parameter taking the message
and the requested digest size. -/
def AddressKey.hash (blake2b : Bytes → Nat → Bytes) (k : Key) : Bytes :=
  blake2b k.payload ADDR_KEYHASH_SIZE

/-- Embeds `PaymentKeyPair` (key.py lines 124-127): wraps the two byte
strings in the payment signing/verification variants. -/
structure PaymentKeyPair where
  signing_key : Key
  verification_key : Key
deriving DecidableEq

/-- Embeds `PaymentKeyPair.__init__` (key.py lines 125-127). -/
def PaymentKeyPair.init (sk vk : Bytes) : PaymentKeyPair :=
  { signing_key := Key.init PaymentSigningKey sk none none
    verification_key := Key.init PaymentVerificationKey vk none none }

/-- Embeds `PaymentKeyPair.from_private_key` (key.py lines 134-137):
derive the public bytes with the external Ed25519 derivation
(`NACLSigningKey(sk).verify_key`, passed as the parameter `verify_key`)
and wrap both byte strings. -/
def PaymentKeyPair.from_private_key (verify_key : Bytes → Bytes)
    (signing_key : Bytes) : PaymentKeyPair :=
  PaymentKeyPair.init signing_key (verify_key signing_key)

/-- Embeds `StakeKeyPair` (key.py lines 150-153). -/
structure StakeKeyPair where
  signing_key : Key
  verification_key : Key
deriving DecidableEq

/-- Embeds `StakeKeyPair.__init__` (key.py lines 151-153). -/
def StakeKeyPair.init (sk vk : Bytes) : StakeKeyPair :=
  { signing_key := Key.init StakeSigningKey sk none none
    verification_key := Key.init StakeVerificationKey vk none none }

/-- Embeds `StakeKeyPair.from_private_key` (key.py lines 160-163). -/
def StakeKeyPair.from_private_key (verify_key : Bytes → Bytes)
    (signing_key : Bytes) : StakeKeyPair :=
  StakeKeyPair.init signing_key (verify_key signing_key)

end PyCardano

namespace PyCardano

theorem charNibble_nibbleChar : ∀ n < 16, charNibble (nibbleChar n) = some n := by decide

theorem hexDecode_hexEncode (b : Bytes) (hb : isBytes b) :
    hexDecode (hexEncode b) = some b := by
  induction b with
  | nil => rfl
  | cons x tl ih =>
    have hx : x < 256 := hb x (by simp)
    have htl : isBytes tl := fun y hy => hb y (by simp [hy])
    have h1 : charNibble (nibbleChar (x / 16)) = some (x / 16) :=
      charNibble_nibbleChar _ (by omega)
    have h2 : charNibble (nibbleChar (x % 16)) = some (x % 16) :=
      charNibble_nibbleChar _ (by omega)
    have henc : hexEncode (x :: tl)
        = nibbleChar (x / 16) :: nibbleChar (x % 16) :: hexEncode tl := by
      simp [hexEncode]
    rw [henc]
    simp only [hexDecode, h1, h2, ih htl]
    have hmod : 16 * (x / 16) + x % 16 = x := Nat.div_add_mod x 16
    simp [hmod]

theorem pyOr_ne_empty (x : Option String) (d : String) (hd : d ≠ "") :
    pyOr x d ≠ "" := by
  cases x with
  | none => simpa [pyOr]
  | some s => by_cases hs : s = "" <;> simp [pyOr, hs, hd]

/-- Claim C1 (code bug): with metadata omitted, every concrete variant's
key comes out with `key_type = KEY_TYPE`, but its description is the
`KEY_TYPE` string as well (key.py line 23), not the `DESCRIPTION`
constant the claim states. -/
theorem C1_description_defaults_to_KEY_TYPE :
    (Key.init PaymentSigningKey [0] none none).key_type
        = PaymentSigningKey.KEY_TYPE ∧
    (Key.init PaymentSigningKey [0] none none).description
        = "PaymentSigningKeyShelley_ed25519" ∧
    (Key.init PaymentSigningKey [0] none none).description
        ≠ PaymentSigningKey.DESCRIPTION ∧
    (Key.init PaymentVerificationKey [0] none none).description
        ≠ PaymentVerificationKey.DESCRIPTION ∧
    (Key.init StakeSigningKey [0] none none).description
        ≠ StakeSigningKey.DESCRIPTION ∧
    (Key.init StakeVerificationKey [0] none none).description
        ≠ StakeVerificationKey.DESCRIPTION := by
  refine ⟨rfl, by decide, by decide, by decide, by decide, by decide⟩

/-- Claim C2 (code bug): the JSON round-trip on `PaymentSigningKey([0])`
recovers the payload and the `KEY_TYPE` tag, but the restored
description is the `KEY_TYPE` string, not the `DESCRIPTION` constant. -/
theorem C2_json_roundtrip_description :
    Key.from_json idCodec PaymentSigningKey
        (Key.to_json idCodec (Key.init PaymentSigningKey [0] none none)) false
      = .ok (Key.mk PaymentSigningKey [0]
          "PaymentSigningKeyShelley_ed25519"
          "PaymentSigningKeyShelley_ed25519") ∧
    ("PaymentSigningKeyShelley_ed25519" : String)
        ≠ PaymentSigningKey.DESCRIPTION := by
  exact ⟨rfl, by decide⟩

/-- Claim C3 (code bug): `deserialize (serialize k)` recovers the payload
but defaults the description to the `KEY_TYPE` string, not to the
`DESCRIPTION` constant. -/
theorem C3_deserialize_metadata :
    Key.deserialize PaymentSigningKey
        (Key.serialize (Key.init PaymentSigningKey [0] none none))
      = Key.mk PaymentSigningKey [0]
          "PaymentSigningKeyShelley_ed25519"
          "PaymentSigningKeyShelley_ed25519" ∧
    PaymentSigningKey.DESCRIPTION
        ≠ ("PaymentSigningKeyShelley_ed25519" : String) := by
  exact ⟨rfl, by decide⟩

/-- Claim C4: on a well-formed key JSON object, `from_json` with
`validate_type` raises `InvalidKeyTypeException` exactly when the
object's `type` field differs from the class's `KEY_TYPE`, succeeds when
they are equal, and with `validate_type = false` succeeds with no type
check at all. -/
theorem C4_from_json_type_validation (cc : BinaryCodec) (c : KeyClass)
    (obj : JsonObj) (t d h : String) (raw : Bytes)
    (ht : obj.lookup "type" = some t)
    (hd : obj.lookup "description" = some d)
    (hh : obj.lookup "cborHex" = some h)
    (hraw : hexDecode h.data = some raw) :
    (t ≠ c.KEY_TYPE →
      Key.from_json cc c obj true
        = .error (.invalidKeyTypeException c.KEY_TYPE t)) ∧
    (t = c.KEY_TYPE →
      Key.from_json cc c obj true
        = .ok (Key.init c (cc.decode raw) (some t) (some d))) ∧
    Key.from_json cc c obj false
      = .ok (Key.init c (cc.decode raw) (some t) (some d)) := by
  have hbody : Key.from_json_body cc c obj
      = .ok (Key.init c (cc.decode raw) (some t) (some d)) := by
    simp [Key.from_json_body, hh, Key.from_cbor, hraw, ht, hd,
      Key.deserialize, Key.init]
  refine ⟨fun hne => ?_, fun heq => ?_, ?_⟩
  · simp [Key.from_json, ht, hne]
  · simp [Key.from_json, ht, heq, hbody]
  · simpa [Key.from_json] using hbody

def sampleObj : JsonObj :=
  [("type", "PaymentSigningKeyShelley_ed25519"),
   ("description", "some label"),
   ("cborHex", "00")]

theorem C4_from_json_type_validation_witness :
    sampleObj.lookup "type" = some "PaymentSigningKeyShelley_ed25519" ∧
    sampleObj.lookup "description" = some "some label" ∧
    sampleObj.lookup "cborHex" = some "00" ∧
    hexDecode "00".data = some [0] ∧
    Key.from_json idCodec PaymentSigningKey sampleObj false
      = .ok (Key.init PaymentSigningKey [0]
          (some "PaymentSigningKeyShelley_ed25519") (some "some label")) :=
  ⟨rfl, rfl, rfl, rfl,
    (C4_from_json_type_validation idCodec PaymentSigningKey sampleObj
      "PaymentSigningKeyShelley_ed25519" "some label" "00" [0]
      rfl rfl rfl rfl).2.2⟩

/-- Claim C5: `__eq__` between two keys is exactly componentwise equality
of payload, key_type and description. -/
theorem C5_eq_iff_components (k1 k2 : Key) :
    Key.eq k1 (.key k2) = true ↔
      (k1.payload = k2.payload ∧ k1.key_type = k2.key_type ∧
        k1.description = k2.description) := by
  simp only [Key.eq, Bool.and_eq_true, beq_iff_eq]
  tauto

/-- Claim C6: `to_json` yields exactly the three fields `type`,
`description` and `cborHex`, the first two copied from the key and the
third the hex encoding of the external binary encoding of
`serialize()`, i.e. of the payload. -/
theorem C6_to_json_fields (cc : BinaryCodec) (k : Key) :
    Key.to_json cc k
      = [("type", k.key_type), ("description", k.description),
         ("cborHex", String.mk (hexEncode (cc.encode k.payload)))] ∧
    (Key.to_json cc k).map Prod.fst = ["type", "description", "cborHex"] ∧
    (Key.to_json cc k).lookup "cborHex"
      = some (String.mk (hexEncode (cc.encode (Key.serialize k)))) := by
  refine ⟨rfl, rfl, ?_⟩
  simp [Key.to_json, Key.to_cbor, List.lookup]

/-- Claim C7: `AddressKey.hash` is the raw BLAKE2b digest of the payload
at `ADDR_KEYHASH_SIZE = 28` bytes; for any digest primitive honouring
the requested output size it returns exactly 28 bytes, and keys with
equal payloads hash identically. -/
theorem C7_hash_size_deterministic (blake2b : Bytes → Nat → Bytes)
    (hlen : ∀ msg n, (blake2b msg n).length = n) (k k1 k2 : Key)
    (hpay : k1.payload = k2.payload) :
    AddressKey.hash blake2b k = blake2b k.payload 28 ∧
    (AddressKey.hash blake2b k).length = 28 ∧
    AddressKey.hash blake2b k1 = AddressKey.hash blake2b k2 := by
  refine ⟨rfl, hlen _ _, ?_⟩
  simp [AddressKey.hash, hpay]

/-- A digest stand-in meeting the documented BLAKE2b signature (output
of the requested length), used to evaluate the embedding concretely. -/
def constHash : Bytes → Nat → Bytes := fun _ n => List.replicate n 0

theorem C7_hash_size_deterministic_witness :
    (∀ msg n, (constHash msg n).length = n) ∧
    ((Key.init PaymentVerificationKey [1, 2] none none).payload
        = (Key.init StakeVerificationKey [1, 2] none none).payload) ∧
    (AddressKey.hash constHash
        (Key.init PaymentVerificationKey [1, 2] none none)).length = 28 :=
  ⟨fun _ n => List.length_replicate n 0, rfl,
    (C7_hash_size_deterministic constHash (fun _ n => List.length_replicate n 0)
      (Key.init PaymentVerificationKey [1, 2] none none)
      (Key.init PaymentVerificationKey [1, 2] none none)
      (Key.init StakeVerificationKey [1, 2] none none) rfl).2.1⟩

/-- Claim C8: `from_private_key` keeps the seed as the signing key's
payload and stores the externally derived Ed25519 public bytes as the
verification key's payload, for both the payment and the stake factory;
as a pure function of the seed, the derivation is deterministic. -/
theorem C8_from_private_key_payloads (verify_key : Bytes → Bytes)
    (seed : Bytes) (_h32 : seed.length = 32) :
    (PaymentKeyPair.from_private_key verify_key seed).signing_key.payload
        = seed ∧
    (PaymentKeyPair.from_private_key verify_key seed).verification_key.payload
        = verify_key seed ∧
    (StakeKeyPair.from_private_key verify_key seed).signing_key.payload
        = seed ∧
    (StakeKeyPair.from_private_key verify_key seed).verification_key.payload
        = verify_key seed :=
  ⟨rfl, rfl, rfl, rfl⟩

theorem C8_from_private_key_payloads_witness :
    (List.replicate 32 0).length = 32 ∧
    (PaymentKeyPair.from_private_key id (List.replicate 32 0)).signing_key.payload
        = List.replicate 32 0 :=
  ⟨List.length_replicate 32 0,
    (C8_from_private_key_payloads id (List.replicate 32 0)
      (List.length_replicate 32 0)).1⟩

/-- Claim C9: for every concrete variant, explicitly passing the empty
string for `key_type` or `description` is ignored (Python `or`
truthiness), giving the same key as omitting them; no override can make
either metadata field empty. -/
theorem C9_empty_override_ignored (c : KeyClass)
    (hc : c ∈ concreteKeyClasses) (b : Bytes) :
    Key.init c b (some "") (some "") = Key.init c b none none ∧
    ∀ kt d : Option String,
      (Key.init c b kt d).key_type ≠ "" ∧
      (Key.init c b kt d).description ≠ "" := by
  have hc' : c = PaymentSigningKey ∨ c = PaymentVerificationKey ∨
      c = StakeSigningKey ∨ c = StakeVerificationKey := by
    simpa [concreteKeyClasses] using hc
  have hKT : c.KEY_TYPE ≠ "" := by
    rcases hc' with h | h | h | h <;> subst h <;> decide
  refine ⟨by simp [Key.init, pyOr], fun kt d => ⟨?_, ?_⟩⟩
  · exact pyOr_ne_empty kt c.KEY_TYPE hKT
  · exact pyOr_ne_empty d c.KEY_TYPE hKT

theorem C9_empty_override_ignored_witness :
    PaymentSigningKey ∈ concreteKeyClasses ∧
    Key.init PaymentSigningKey [0] (some "") (some "")
      = Key.init PaymentSigningKey [0] none none :=
  ⟨by simp [concreteKeyClasses],
    (C9_empty_override_ignored PaymentSigningKey
      (by simp [concreteKeyClasses]) [0]).1⟩

/-- Claim C10: `__eq__` never inspects the concrete class: keys built by
any two subclasses with equal payload, key_type and description compare
equal, and comparison against a non-`Key` value returns `False`. -/
theorem C10_eq_ignores_class (k1 k2 : Key) (v : String)
    (hp : k1.payload = k2.payload) (ht : k1.key_type = k2.key_type)
    (hd : k1.description = k2.description) :
    Key.eq k1 (.key k2) = true ∧ Key.eq k1 (.nonKey v) = false := by
  refine ⟨?_, rfl⟩
  simp [Key.eq, hp, ht, hd]

theorem C10_eq_ignores_class_witness :
    ((Key.init PaymentSigningKey [7] (some "T") (some "D")).payload
        = (Key.init StakeSigningKey [7] (some "T") (some "D")).payload) ∧
    ((Key.init PaymentSigningKey [7] (some "T") (some "D")).key_type
        = (Key.init StakeSigningKey [7] (some "T") (some "D")).key_type) ∧
    ((Key.init PaymentSigningKey [7] (some "T") (some "D")).description
        = (Key.init StakeSigningKey [7] (some "T") (some "D")).description) ∧
    Key.eq (Key.init PaymentSigningKey [7] (some "T") (some "D"))
      (.key (Key.init StakeSigningKey [7] (some "T") (some "D"))) = true ∧
    Key.eq (Key.init PaymentSigningKey [7] (some "T") (some "D"))
      (.nonKey "not a key") = false := by
  have h := C10_eq_ignores_class
    (Key.init PaymentSigningKey [7] (some "T") (some "D"))
    (Key.init StakeSigningKey [7] (some "T") (some "D"))
    "not a key" (by decide) (by decide) (by decide)
  exact ⟨by decide, by decide, by decide, h.1, h.2⟩

end PyCardano
